import Mathlib

/-!
Shallow embedding of `dvc/fs/fsspec_wrapper.py`: the `FSSpecWrapper` base
class, the `ObjectFSWrapper` subclass, and the `NoDirectoriesMixin` /
`CallbackMixin` mixins.  The underlying fsspec filesystem (`self.fs`) is an
external dependency; the wrapper only calls a fixed set of its primitives, so
it is embedded as a record of functions (`Driver`).  Fallible primitives
return `Except Err`; a Python `FileNotFoundError` is `Err.fileNotFound`.

The generator methods (`ls`, `find`) produce lazy sequences in Python; they
are embedded as the finite sequence the caller obtains by exhausting the
generator, with `Except` capturing an exception raised during iteration.
-/

namespace DvcFS

set_option autoImplicit false

/-- Exceptions that can cross the wrapper boundary.  `fileNotFound` is
Python's `FileNotFoundError` (the spec's `NotFound`); `notImplemented` is
`NotImplementedError` (the spec's `NotSupported`); `unboundLocal` is
`UnboundLocalError`, raised when a local variable is read before assignment;
`other` stands for any further driver-raised exception. -/
inductive Err where
  | fileNotFound
  | alreadyExists
  | notImplemented
  | unboundLocal
  | other (msg : String)
  deriving DecidableEq, Repr

/-- An `info()` entry: a dict with at least `name`, `type` (`"file"` or
`"directory"`) and `size`. -/
structure Entry where
  name : String
  type : String
  size : Nat
  deriving DecidableEq, Repr

/-- The value sequence produced by a `find` generator: plain names
(`detail=False`), the forwarded `name -> entry` dict of `fs.find`
(`detail=True` in the base wrapper, which forwards it unchanged), or the
dict's values (`detail=True` in the object wrapper, which takes
`list(files.values())`). -/
inductive FindResult where
  | names (xs : List String)
  | items (xs : List (String × Entry))
  | entries (xs : List Entry)
  deriving DecidableEq, Repr

/-- The fsspec filesystem instance (`self.fs`) as the wrapper sees it: one
field per primitive the wrapper calls.  `findPfxFn root pfx` is
`fs.find(root, prefix=pfx)` (detail off) and `findPfxDetailFn` the same with
`detail=True`; `lsFn p detail` is `fs.ls(p, detail=detail)` with its result
forwarded opaquely. -/
structure Driver where
  isdirFn : String → Except Err Bool
  infoFn : String → Except Err Entry
  existsFn : String → Except Err Bool
  lsFn : String → Bool → Except Err FindResult
  findFn : String → Except Err (List String)
  findDetailFn : String → Except Err (List (String × Entry))
  findPfxFn : String → String → Except Err (List String)
  findPfxDetailFn : String → String → Except Err (List (String × Entry))
  moveFn : String → String → Except Err Unit
  rmFileFn : String → Except Err Unit
  copyFn : String → String → Except Err Unit
  checksumFn : String → Except Err String
  openFn : String → String → Except Err Unit
  makedirsFn : String → Bool → Except Err Unit

/-- `s` begins with `pat`, on character lists (a structurally recursive
embedding of Python's `str.startswith`). -/
def charsStartWith : List Char → List Char → Bool
  | _, [] => true
  | [], _ :: _ => false
  | c :: cs, d :: ds => c = d && charsStartWith cs ds

/-- Python's `s.startswith(pat)`. -/
def strStarts (s pat : String) : Bool :=
  charsStartWith s.toList pat.toList

/-- Python's `s.endswith(pat)`. -/
def strEnds (s pat : String) : Bool :=
  charsStartWith s.toList.reverse pat.toList.reverse

/-- Split a character list at a separator; never returns `[]`. -/
def splitChars (sep : Char) : List Char → List (List Char)
  | [] => [[]]
  | c :: cs =>
      match splitChars sep cs with
      | [] => [[]]
      | seg :: rest => if c = sep then [] :: seg :: rest else (c :: seg) :: rest

/-- Join path segments back with the separator. -/
def joinSegs : List String → String
  | [] => ""
  | [s] => s
  | s :: rest => s ++ "/" ++ joinSegs rest

/-- Modelled from the spec: the Path Helper component ("pure functions for
parent/child/segment decomposition of backend-specific path strings"); its
source file is not under `src/`.  Paths are separator-joined segment lists:
`parts` splits on the separator. -/
def Path.parts (p : String) : List String :=
  (splitChars '/' p.toList).map String.mk

/-- Modelled from the spec: the Path Helper's `parent` drops the last
segment of the path. -/
def Path.parent (p : String) : String :=
  joinSegs (Path.parts p).dropLast

/-- The last path segment, `self.path.parts(p)[-1]` (`splitOn` never
returns `[]`, so the default is never taken). -/
def Path.lastPart (p : String) : String :=
  (Path.parts p).getLastD ""

/-- `FSSpecWrapper._isdir`: delegates to `self.fs.isdir`. -/
def FSSpecWrapper._isdir (d : Driver) (p : String) : Except Err Bool :=
  d.isdirFn p

/-- The `isdir` body shared by base class and subclass via dynamic dispatch
on `self._isdir`: `try: return self._isdir(p) except FileNotFoundError:
return False`. -/
def isdirOf (u : String → Except Err Bool) (p : String) : Except Err Bool :=
  match u p with
  | Except.ok b => Except.ok b
  | Except.error Err.fileNotFound => Except.ok false
  | Except.error e => Except.error e

/-- The `isfile` body shared via dynamic dispatch on `self._isdir`:
`try: return not self._isdir(p) except FileNotFoundError: return False`. -/
def isfileOf (u : String → Except Err Bool) (p : String) : Except Err Bool :=
  match u p with
  | Except.ok b => Except.ok (!b)
  | Except.error Err.fileNotFound => Except.ok false
  | Except.error e => Except.error e

/-- `FSSpecWrapper.isdir`. -/
def FSSpecWrapper.isdir (d : Driver) (p : String) : Except Err Bool :=
  isdirOf (FSSpecWrapper._isdir d) p

/-- `FSSpecWrapper.isfile`. -/
def FSSpecWrapper.isfile (d : Driver) (p : String) : Except Err Bool :=
  isfileOf (FSSpecWrapper._isdir d) p

/-- `FSSpecWrapper.exists`: `return self.fs.exists(path_info)`. -/
def FSSpecWrapper.existsP (d : Driver) (p : String) : Except Err Bool :=
  d.existsFn p

/-- `FSSpecWrapper.ls`: `yield from self.fs.ls(path_info, detail=detail)`. -/
def FSSpecWrapper.ls (d : Driver) (p : String) (detail : Bool) : Except Err FindResult :=
  d.lsFn p detail

/-- `FSSpecWrapper.find`: `yield from self.fs.find(path_info, detail=detail)`;
the `prefix` parameter is accepted and ignored. -/
def FSSpecWrapper.find (d : Driver) (p : String) (detail : Bool)
    (_pfx : Option Bool) : Except Err FindResult :=
  if detail then
    match d.findDetailFn p with
    | Except.ok xs => Except.ok (FindResult.items xs)
    | Except.error e => Except.error e
  else
    match d.findFn p with
    | Except.ok xs => Except.ok (FindResult.names xs)
    | Except.error e => Except.error e

/-- `FSSpecWrapper.move`: `self.fs.move(from_info, to_info)`. -/
def FSSpecWrapper.move (d : Driver) (a b : String) : Except Err Unit :=
  d.moveFn a b

/-- `FSSpecWrapper.remove`: `self.fs.rm_file(path_info)`. -/
def FSSpecWrapper.remove (d : Driver) (p : String) : Except Err Unit :=
  d.rmFileFn p

/-- `FSSpecWrapper.info`: `return self.fs.info(path_info)`. -/
def FSSpecWrapper.info (d : Driver) (p : String) : Except Err Entry :=
  d.infoFn p

/-- `FSSpecWrapper.checksum`: `return self.fs.checksum(path_info)`. -/
def FSSpecWrapper.checksum (d : Driver) (p : String) : Except Err String :=
  d.checksumFn p

/-- `FSSpecWrapper.open`: `return self.fs.open(path_info, mode=mode)`. -/
def FSSpecWrapper.openF (d : Driver) (p mode : String) : Except Err Unit :=
  d.openFn p mode

/-- `FSSpecWrapper.makedirs`: delegates with
`exist_ok=kwargs.pop("exist_ok", True)`. -/
def FSSpecWrapper.makedirs (d : Driver) (p : String) (existOk : Bool) : Except Err Unit :=
  d.makedirsFn p existOk

/-- `FSSpecWrapper.copy`: `self.makedirs(self.path.parent(to_info))` (the
`exist_ok` default `True`), then `self.fs.copy(from_info, to_info)`. -/
def FSSpecWrapper.copy (d : Driver) (src dst : String) : Except Err Unit :=
  match FSSpecWrapper.makedirs d (Path.parent dst) true with
  | Except.ok _ => d.copyFn src dst
  | Except.error e => Except.error e

/-- `ObjectFSWrapper.makedirs`: `return None` — a no-op that never touches
the driver. -/
def ObjectFSWrapper.makedirs (_p : String) : Except Err Unit :=
  Except.ok ()

/-- `ObjectFSWrapper._isdir`: `entry = self.info(path_info)` then
`entry["type"] == "directory" or (entry["size"] == 0 and entry["type"] ==
"file" and entry["name"].endswith("/"))`. -/
def ObjectFSWrapper._isdir (d : Driver) (p : String) : Except Err Bool :=
  match d.infoFn p with
  | Except.ok entry =>
      Except.ok (entry.type == "directory" ||
        (entry.size == 0 && entry.type == "file" && strEnds entry.name "/"))
  | Except.error e => Except.error e

/-- `ObjectFSWrapper.isdir` (inherited body, dispatching to the overridden
`_isdir`). -/
def ObjectFSWrapper.isdir (d : Driver) (p : String) : Except Err Bool :=
  isdirOf (ObjectFSWrapper._isdir d) p

/-- `ObjectFSWrapper.isfile` (inherited body, dispatching to the overridden
`_isdir`). -/
def ObjectFSWrapper.isfile (d : Driver) (p : String) : Except Err Bool :=
  isfileOf (ObjectFSWrapper._isdir d) p

/-- `ObjectFSWrapper.find`.  The Python local `path` is assigned only inside
the `if prefix:` branch, so it is embedded as an `Option`; reading it in the
`else` path raises `UnboundLocalError`.  `detail=True` turns `files` into
`list(files.values())`, a list of entry dicts, and a Python `dict == str`
comparison is plain `False`.  The final guard
`len(files) == 1 and files[0] == path and self.isdir(path_info)`
short-circuits left to right. -/
def ObjectFSWrapper.find (d : Driver) (pathInfo : String) (detail : Bool)
    (pfx : Bool) : Except Err FindResult :=
  let pathOpt : Option String :=
    if pfx then some (Path.parent pathInfo) else none
  if detail then
    match (if pfx then
             d.findPfxDetailFn (Path.parent pathInfo) (Path.lastPart pathInfo)
           else d.findDetailFn pathInfo) with
    | Except.error e => Except.error e
    | Except.ok dict =>
        let files : List Entry := dict.map Prod.snd
        if files.length = 1 then
          match pathOpt with
          | none => Except.error Err.unboundLocal
          | some _ => Except.ok (FindResult.entries files)
        else Except.ok (FindResult.entries files)
  else
    match (if pfx then
             d.findPfxFn (Path.parent pathInfo) (Path.lastPart pathInfo)
           else d.findFn pathInfo) with
    | Except.error e => Except.error e
    | Except.ok files =>
        if files.length = 1 then
          match pathOpt with
          | none => Except.error Err.unboundLocal
          | some path =>
              if files.headD "" = path then
                match ObjectFSWrapper.isdir d pathInfo with
                | Except.error e => Except.error e
                | Except.ok true => Except.ok (FindResult.names [])
                | Except.ok false => Except.ok (FindResult.names files)
              else Except.ok (FindResult.names files)
        else Except.ok (FindResult.names files)

/-- `NoDirectoriesMixin.isdir`: `return False` for any arguments. -/
def NoDirectoriesMixin.isdir (_p : String) : Bool :=
  false

/-- `NoDirectoriesMixin.isfile`: `return True` for any arguments. -/
def NoDirectoriesMixin.isfile (_p : String) : Bool :=
  true

/-- `NoDirectoriesMixin.find`: `raise NotImplementedError`. -/
def NoDirectoriesMixin.find (_p : String) : Except Err FindResult :=
  Except.error Err.notImplemented

/-- `NoDirectoriesMixin.walk`: `raise NotImplementedError`. -/
def NoDirectoriesMixin.walk (_p : String) : Except Err Unit :=
  Except.error Err.notImplemented

/-- `NoDirectoriesMixin.ls`: `raise NotImplementedError`. -/
def NoDirectoriesMixin.ls (_p : String) : Except Err FindResult :=
  Except.error Err.notImplemented

/-!
Stateful model of a driver, for the operations whose contract is about
state: uploads, listing-cache invalidation, directory creation, copy.  The
primitives themselves (`fs.put_file`, `fs.ls`, `fs.invalidate_cache`,
`fs.makedirs`, `fs.copy`) are fsspec code, not part of this repository, so
they are modelled from the spec's Driver interface.
-/

/-- A driver-side state: the objects in the store, the directories that
exist (hierarchical backends), and the per-path cached listings the driver
may serve instead of recomputing. -/
structure St where
  objects : List String
  dirs : List String
  cache : List (String × List String)
  deriving DecidableEq, Repr

/-- Lookup of a cached listing by path. -/
def lookupCache : List (String × List String) → String → Option (List String)
  | [], _ => none
  | (k, v) :: rest, p => if k = p then some v else lookupCache rest p

/-- Modelled from the spec: the Driver primitive `invalidate(path)` —
drops any cached listing recorded for `path`. -/
def fsInvalidateCache (st : St) (p : String) : St :=
  { st with cache := st.cache.filter (fun kv => kv.1 ≠ p) }

/-- Modelled from the spec: the Driver primitive `list(path)`; it serves a
cached listing when one is present — the stale-cache behavior the
invalidate-after-write contract guards against — and otherwise computes the
one-level listing from the store. -/
def fsLs (st : St) (p : String) : List String :=
  match lookupCache st.cache p with
  | some l => l
  | none => st.objects.filter (fun o => Path.parent o = p)

/-- Modelled from the spec: the Driver upload primitive used by
`fs.put_file` and by writing through `open(dst, "wb")`; records the object,
leaving any cached listing untouched. -/
def fsWriteObj (st : St) (dst : String) : St :=
  { st with objects := dst :: st.objects }

/-- Modelled from the spec: the Driver primitive `makedirs(path, exist_ok)` —
"Ensures path exists as a directory; no-op if already exists and existOk;
fails `AlreadyExists` if not existOk and it does." -/
def fsMakedirs (st : St) (p : String) (existOk : Bool) : Except Err St :=
  if p ∈ st.dirs then
    if existOk then Except.ok st else Except.error Err.alreadyExists
  else Except.ok { st with dirs := p :: st.dirs }

/-- Modelled from the spec: the Driver primitive `copy(src, dst)` — fails
`NotFound` if `src` is absent; on a hierarchical backend the destination's
parent directory must already exist for the copy to land. -/
def fsCopy (st : St) (src dst : String) : Except Err St :=
  if src ∈ st.objects then
    if Path.parent dst ∈ st.dirs then
      Except.ok { st with objects := dst :: st.objects }
    else Except.error Err.fileNotFound
  else Except.error Err.fileNotFound

/-- `FSSpecWrapper.ls` over the stateful driver model. -/
def FSSpecWrapper.lsSt (st : St) (p : String) : List String :=
  fsLs st p

/-- `FSSpecWrapper.makedirs` over the stateful driver model. -/
def FSSpecWrapper.makedirsSt (st : St) (p : String) (existOk : Bool) : Except Err St :=
  fsMakedirs st p existOk

/-- `ObjectFSWrapper.makedirs` over the stateful driver model: `return None`
without consulting the driver, so the state is returned untouched. -/
def ObjectFSWrapper.makedirsSt (st : St) (_p : String) : Except Err St :=
  Except.ok st

/-- `FSSpecWrapper.put_file` over the stateful driver model:
`self.fs.put_file(from_file, to_info, ...)` then
`self.fs.invalidate_cache(self.path.parent(to_info))`. -/
def FSSpecWrapper.putFileSt (st : St) (_fromFile dst : String) : St :=
  fsInvalidateCache (fsWriteObj st dst) (Path.parent dst)

/-- `FSSpecWrapper.upload_fobj` over the stateful driver model:
`self.makedirs(self.path.parent(to_info))`, then write `to_info` through
`self.open(to_info, "wb")`. -/
def FSSpecWrapper.uploadFobjSt (st : St) (dst : String) : Except Err St :=
  match FSSpecWrapper.makedirsSt st (Path.parent dst) true with
  | Except.ok st1 => Except.ok (fsWriteObj st1 dst)
  | Except.error e => Except.error e

/-- `CallbackMixin.put_file` over the stateful driver model:
`self.makedirs(self.path.parent(to_info))`, the progress-wrapped
`self.upload_fobj(wrapped, to_info)`, then
`self.fs.invalidate_cache(self.path.parent(to_info))`. -/
def CallbackMixin.putFileSt (st : St) (_fromFile dst : String) : Except Err St :=
  match FSSpecWrapper.makedirsSt st (Path.parent dst) true with
  | Except.error e => Except.error e
  | Except.ok st1 =>
      match FSSpecWrapper.uploadFobjSt st1 dst with
      | Except.error e => Except.error e
      | Except.ok st2 => Except.ok (fsInvalidateCache st2 (Path.parent dst))

/-- `FSSpecWrapper.copy` over the stateful driver model:
`self.makedirs(self.path.parent(to_info))` then
`self.fs.copy(from_info, to_info)`. -/
def FSSpecWrapper.copySt (st : St) (src dst : String) : Except Err St :=
  match FSSpecWrapper.makedirsSt st (Path.parent dst) true with
  | Except.ok st1 => fsCopy st1 src dst
  | Except.error e => Except.error e

/-!
A concrete flat object store, to instantiate the abstract `Driver` on
backends like the spec's examples.  fsspec itself is external, so these
primitives are modelled from the spec's Driver interface.
-/

/-- Modelled from the spec: a flat store's `stat` — a key present in the
store is a file entry; a key that is a proper prefix of stored keys is a
simulated directory; anything else raises `NotFound`. -/
def flatInfo (objs : List (String × Nat)) (p : String) : Except Err Entry :=
  match objs.find? (fun kv => kv.1 = p) with
  | some kv => Except.ok { name := kv.1, type := "file", size := kv.2 }
  | none =>
      if objs.any (fun kv => strStarts kv.1 (p ++ "/")) then
        Except.ok { name := p, type := "directory", size := 0 }
      else Except.error Err.fileNotFound

/-- Modelled from the spec: a flat store's recursive `find` — a stored key
queried directly comes back as itself; otherwise all keys under the queried
path. -/
def flatFind (objs : List (String × Nat)) (p : String) : List String :=
  if objs.any (fun kv => kv.1 = p) then [p]
  else (objs.map Prod.fst).filter (fun o => strStarts o (p ++ "/"))

/-- Modelled from the spec: a flat store's prefix search,
`fs.find(root, prefix=pfx)` — the keys sharing `root ++ "/" ++ pfx` as a
leading portion ("restricting to entries whose trailing path segment starts
with path's last segment"). -/
def flatFindPfx (objs : List (String × Nat)) (root pfx : String) : List String :=
  (objs.map Prod.fst).filter (fun o => strStarts o (root ++ "/" ++ pfx))

/-- The abstract `Driver` of a concrete flat object store holding `objs`
(name, size pairs); primitives the claims never exercise are left failing. -/
def flatDriver (objs : List (String × Nat)) : Driver where
  isdirFn := fun p =>
    match flatInfo objs p with
    | Except.ok e => Except.ok (e.type == "directory")
    | Except.error e => Except.error e
  infoFn := flatInfo objs
  existsFn := fun p =>
    match flatInfo objs p with
    | Except.ok _ => Except.ok true
    | Except.error _ => Except.ok false
  lsFn := fun p _ => Except.ok (FindResult.names (flatFind objs p))
  findFn := fun p => Except.ok (flatFind objs p)
  findDetailFn := fun p =>
    Except.ok ((flatFind objs p).map (fun o =>
      (o, { name := o, type := "file",
            size := ((objs.find? (fun kv => kv.1 = o)).map Prod.snd).getD 0 })))
  findPfxFn := fun root pfx => Except.ok (flatFindPfx objs root pfx)
  findPfxDetailFn := fun root pfx =>
    Except.ok ((flatFindPfx objs root pfx).map (fun o =>
      (o, { name := o, type := "file",
            size := ((objs.find? (fun kv => kv.1 = o)).map Prod.snd).getD 0 })))
  moveFn := fun _ _ => Except.error (Err.other "unused")
  rmFileFn := fun _ => Except.error (Err.other "unused")
  copyFn := fun _ _ => Except.error (Err.other "unused")
  checksumFn := fun _ => Except.error (Err.other "unused")
  openFn := fun _ _ => Except.error (Err.other "unused")
  makedirsFn := fun _ _ => Except.ok ()

/-- A driver whose stat reports a zero-byte marker object `"foo/"` for the
query `"foo"`, the way s3fs-style drivers surface an empty simulated
directory; every other primitive behaves like the empty flat store. -/
def markerDriver : Driver :=
  { flatDriver [] with
    infoFn := fun p =>
      if p = "foo" then Except.ok { name := "foo/", type := "file", size := 0 }
      else Except.error Err.fileNotFound }

/-- A driver whose enumeration and copy primitives raise
`FileNotFoundError` and whose `makedirs` succeeds, for exercising the
propagation policy. -/
def notFoundFindDriver : Driver :=
  { flatDriver [] with
    findFn := fun _ => Except.error Err.fileNotFound
    findDetailFn := fun _ => Except.error Err.fileNotFound
    copyFn := fun _ _ => Except.error Err.fileNotFound }

/-!  Helper lemmas shared by the claim theorems.  -/

theorem lookupCache_filter_self (l : List (String × List String)) (p : String) :
    lookupCache (l.filter (fun kv => kv.1 ≠ p)) p = none := by
  induction l with
  | nil => rfl
  | cons kv rest ih =>
      rw [List.filter_cons]
      by_cases hk : kv.1 = p
      · rw [if_neg (by simp [hk])]
        exact ih
      · rw [if_pos (by simp [hk])]
        show (if kv.1 = p then some kv.2 else _) = none
        rw [if_neg hk]
        exact ih

theorem lsSt_after_invalidate (st : St) (p : String) :
    FSSpecWrapper.lsSt (fsInvalidateCache st p) p =
      st.objects.filter (fun o => Path.parent o = p) := by
  show (match lookupCache (st.cache.filter (fun kv => kv.1 ≠ p)) p with
    | some l => l
    | none => st.objects.filter (fun o => Path.parent o = p)) =
    st.objects.filter (fun o => Path.parent o = p)
  rw [lookupCache_filter_self]

theorem mem_filter_parent (dst : String) (xs : List String) :
    dst ∈ (dst :: xs).filter (fun o => Path.parent o = Path.parent dst) := by
  simp [List.mem_filter]

theorem exists_makedirs_true (st : St) (p : String) :
    ∃ st2, fsMakedirs st p true = Except.ok st2 ∧ st2.objects = st.objects ∧
      st2.cache = st.cache ∧ p ∈ st2.dirs := by
  unfold fsMakedirs
  by_cases hp : p ∈ st.dirs
  · exact ⟨st, by simp [hp], rfl, rfl, hp⟩
  · exact ⟨{ st with dirs := p :: st.dirs }, by simp [hp], rfl, rfl,
      List.mem_cons_self _ _⟩

/-!  Claim theorems.  -/

/-- C1: the claim says a non-prefix `find` on a single existing file yields
exactly that file (and yields nothing for a self-referential marker entry).
The code instead raises `UnboundLocalError`: the local `path` compared in
`len(files) == 1 and files[0] == path` is assigned only in the `if prefix:`
branch, so on a store holding the single file `a/b` the query
`find("a/b")` crashes instead of yielding `a/b`. -/
theorem C1_find_single_file_unbound_local :
    ObjectFSWrapper.find (flatDriver [("a/b", 3)]) "a/b" false false =
      Except.error Err.unboundLocal := by
  rfl

/-- C8: under the No-Directory mixin, `isdir` is constantly `false`,
`isfile` constantly `true`, and `find`/`walk`/`ls` deterministically raise
`NotImplementedError` (the spec's `NotSupported`) without consulting any
driver — the mixin's bodies take no driver at all. -/
theorem C8_no_directories_mixin (p : String) :
    NoDirectoriesMixin.isdir p = false ∧
    NoDirectoriesMixin.isfile p = true ∧
    NoDirectoriesMixin.find p = Except.error Err.notImplemented ∧
    NoDirectoriesMixin.walk p = Except.error Err.notImplemented ∧
    NoDirectoriesMixin.ls p = Except.error Err.notImplemented :=
  ⟨rfl, rfl, rfl, rfl, rfl⟩

/-- C10: the base wrapper's `find` body is
`yield from self.fs.find(path_info, detail=detail)` — the `prefix`
parameter is bound but never read, so any two values of it produce the same
sequence for every driver, path and detail flag. -/
theorem C10_base_find_ignores_pfx (d : Driver) (p : String) (detail : Bool)
    (pfx1 pfx2 : Option Bool) :
    FSSpecWrapper.find d p detail pfx1 = FSSpecWrapper.find d p detail pfx2 :=
  rfl

/-- C3: when the underlying stat signals the path's absence as
`FileNotFoundError` — `fs.isdir` for the base wrapper, `fs.info` for the
object-store wrapper — both `isdir` and `isfile` return `false` instead of
propagating. -/
theorem C3_nonexistent_isdir_isfile_false (d : Driver) (p : String) :
    (d.isdirFn p = Except.error Err.fileNotFound →
      FSSpecWrapper.isdir d p = Except.ok false ∧
      FSSpecWrapper.isfile d p = Except.ok false) ∧
    (d.infoFn p = Except.error Err.fileNotFound →
      ObjectFSWrapper.isdir d p = Except.ok false ∧
      ObjectFSWrapper.isfile d p = Except.ok false) := by
  constructor
  · intro h
    constructor <;>
      simp [FSSpecWrapper.isdir, FSSpecWrapper.isfile, isdirOf, isfileOf,
        FSSpecWrapper._isdir, h]
  · intro h
    constructor <;>
      simp [ObjectFSWrapper.isdir, ObjectFSWrapper.isfile, isdirOf, isfileOf,
        ObjectFSWrapper._isdir, h]

/-- Witness for C3: on the empty flat store every path is absent and both
wrappers answer `false` to `isdir` and `isfile` at `"q"`. -/
theorem C3_witness :
    FSSpecWrapper.isdir (flatDriver []) "q" = Except.ok false ∧
    FSSpecWrapper.isfile (flatDriver []) "q" = Except.ok false ∧
    ObjectFSWrapper.isdir (flatDriver []) "q" = Except.ok false ∧
    ObjectFSWrapper.isfile (flatDriver []) "q" = Except.ok false := by
  obtain ⟨h1, h2⟩ := C3_nonexistent_isdir_isfile_false (flatDriver []) "q"
  have a := h1 rfl
  have b := h2 rfl
  exact ⟨a.1, a.2, b.1, b.2⟩

/-- C2: `find` with `prefix=true` enumerates through the driver's prefix
search rooted at the queried path's parent with the path's last segment as
the prefix, and yields exactly what that enumeration returns (as long as
the enumeration is not the single self-referential entry `[parent]`, where
the empty-directory collapse could engage). -/
theorem C2_find_prefix_mode (d : Driver) (p : String) (files : List String)
    (h : d.findPfxFn (Path.parent p) (Path.lastPart p) = Except.ok files)
    (hne : files ≠ [Path.parent p]) :
    ObjectFSWrapper.find d p false true =
      Except.ok (FindResult.names files) := by
  unfold ObjectFSWrapper.find
  rw [if_pos rfl, h]
  by_cases hl : files.length = 1
  · obtain ⟨a, rfl⟩ := List.length_eq_one.mp hl
    have ha : a ≠ Path.parent p := fun hc => hne (by rw [hc])
    simp [hl, ha]
  · simp [hl]

/-- Witness for C2: on the flat store `{a/bar, a/baz, a/qux}` the driver's
prefix search under `a` with prefix `b` yields `[a/bar, a/baz]` and
`find("a/b", prefix=true)` returns exactly those two names. -/
theorem C2_witness :
    (flatDriver [("a/bar", 1), ("a/baz", 2), ("a/qux", 3)]).findPfxFn
        (Path.parent "a/b") (Path.lastPart "a/b") =
      Except.ok ["a/bar", "a/baz"] ∧
    ObjectFSWrapper.find (flatDriver [("a/bar", 1), ("a/baz", 2), ("a/qux", 3)])
        "a/b" false true =
      Except.ok (FindResult.names ["a/bar", "a/baz"]) := by
  refine ⟨by rfl, ?_⟩
  exact C2_find_prefix_mode (flatDriver [("a/bar", 1), ("a/baz", 2), ("a/qux", 3)])
    "a/b" ["a/bar", "a/baz"] (by rfl) (by decide)

/-- C4: `isdir`/`isfile` are the only not-found recoveries — they turn a
driver-raised `FileNotFoundError` into `false` — while `exists`, `ls`,
`find` (both wrappers), `move`, `remove`, `info`, `checksum`, `open` and
`copy` forward the driver's outcome unchanged, `NotFound` included; the
plain equalities show the wrapper adds no failure handling at all to the
delegating operations. -/
theorem C4_notfound_propagation (d : Driver) (p a b m : String)
    (detail : Bool) (pfxO : Option Bool) (e : Err) :
    (d.isdirFn p = Except.error Err.fileNotFound →
        FSSpecWrapper.isdir d p = Except.ok false ∧
        FSSpecWrapper.isfile d p = Except.ok false) ∧
    (d.infoFn p = Except.error Err.fileNotFound →
        ObjectFSWrapper.isdir d p = Except.ok false ∧
        ObjectFSWrapper.isfile d p = Except.ok false) ∧
    FSSpecWrapper.existsP d p = d.existsFn p ∧
    FSSpecWrapper.ls d p detail = d.lsFn p detail ∧
    (d.findFn p = Except.error e →
        FSSpecWrapper.find d p false pfxO = Except.error e) ∧
    (d.findDetailFn p = Except.error e →
        FSSpecWrapper.find d p true pfxO = Except.error e) ∧
    (d.findFn p = Except.error e →
        ObjectFSWrapper.find d p false false = Except.error e) ∧
    FSSpecWrapper.move d a b = d.moveFn a b ∧
    FSSpecWrapper.remove d p = d.rmFileFn p ∧
    FSSpecWrapper.info d p = d.infoFn p ∧
    FSSpecWrapper.checksum d p = d.checksumFn p ∧
    FSSpecWrapper.openF d p m = d.openFn p m ∧
    (d.makedirsFn (Path.parent b) true = Except.ok () →
        FSSpecWrapper.copy d a b = d.copyFn a b) := by
  refine ⟨?_, ?_, rfl, rfl, ?_, ?_, ?_, rfl, rfl, rfl, rfl, rfl, ?_⟩
  · intro h
    constructor <;>
      simp [FSSpecWrapper.isdir, FSSpecWrapper.isfile, isdirOf, isfileOf,
        FSSpecWrapper._isdir, h]
  · intro h
    constructor <;>
      simp [ObjectFSWrapper.isdir, ObjectFSWrapper.isfile, isdirOf, isfileOf,
        ObjectFSWrapper._isdir, h]
  · intro h
    simp [FSSpecWrapper.find, h]
  · intro h
    simp [FSSpecWrapper.find, h]
  · intro h
    simp [ObjectFSWrapper.find, h]
  · intro h
    simp [FSSpecWrapper.copy, FSSpecWrapper.makedirs, h]

/-- Witness for C4: a concrete driver whose stat primitives raise
`FileNotFoundError`, whose find primitives raise `FileNotFoundError`, and
whose `makedirs` succeeds, exercising every hypothesis of the policy
theorem. -/
theorem C4_witness :
    FSSpecWrapper.isdir (flatDriver []) "q" = Except.ok false ∧
    ObjectFSWrapper.isfile (flatDriver []) "q" = Except.ok false ∧
    FSSpecWrapper.find notFoundFindDriver "q" false none =
      Except.error Err.fileNotFound ∧
    FSSpecWrapper.find notFoundFindDriver "q" true none =
      Except.error Err.fileNotFound ∧
    ObjectFSWrapper.find notFoundFindDriver "q" false false =
      Except.error Err.fileNotFound ∧
    FSSpecWrapper.copy notFoundFindDriver "a" "b" =
      notFoundFindDriver.copyFn "a" "b" := by
  obtain ⟨h1, -, -, -, -, -, -, -, -, -, -, -, -⟩ :=
    C4_notfound_propagation (flatDriver []) "q" "a" "b" "r" false none
      Err.fileNotFound
  obtain ⟨-, h2, -, -, h5, h6, h7, -, -, -, -, -, h13⟩ :=
    C4_notfound_propagation notFoundFindDriver "q" "a" "b" "r" false none
      Err.fileNotFound
  refine ⟨(h1 rfl).1, ?_, h5 rfl, h6 rfl, h7 rfl, h13 rfl⟩
  exact ((C4_notfound_propagation (flatDriver []) "q" "a" "b" "r" false none
    Err.fileNotFound).2.1 rfl).2

/-- C5: on the object-store wrapper, when `info(p)` yields an entry,
`isdir(p)` answers `true` exactly when the entry has type `directory` or is
a zero-size file whose name ends in the path separator. -/
theorem C5_object_isdir_classification (d : Driver) (p : String)
    (entry : Entry) (h : d.infoFn p = Except.ok entry) :
    ObjectFSWrapper.isdir d p = Except.ok true ↔
      (entry.type = "directory" ∨
        (entry.size = 0 ∧ entry.type = "file" ∧ strEnds entry.name "/" = true)) := by
  simp [ObjectFSWrapper.isdir, isdirOf, ObjectFSWrapper._isdir, h, and_assoc]

/-- Witness for C5: a driver reporting the zero-byte marker object `"foo/"`
for the query `"foo"` makes `isdir("foo")` true. -/
theorem C5_witness :
    markerDriver.infoFn "foo" =
      Except.ok { name := "foo/", type := "file", size := 0 } ∧
    ObjectFSWrapper.isdir markerDriver "foo" = Except.ok true := by
  refine ⟨rfl, ?_⟩
  exact (C5_object_isdir_classification markerDriver "foo"
    { name := "foo/", type := "file", size := 0 } rfl).mpr
    (Or.inr ⟨rfl, rfl, by decide⟩)

/-- C6: the object-store wrapper's `makedirs` is unconditionally a no-op
that consults no driver state and never fails (its body is `return None`,
so it succeeds with the state untouched — and is therefore idempotent);
the base wrapper's `makedirs` with `exist_ok=True` is idempotent: a second
call after a successful one succeeds and leaves the state unchanged. -/
theorem C6_makedirs_idempotent (st : St) (p : String) :
    ObjectFSWrapper.makedirsSt st p = Except.ok st ∧
    (∀ st2, FSSpecWrapper.makedirsSt st p true = Except.ok st2 →
      FSSpecWrapper.makedirsSt st2 p true = Except.ok st2) := by
  refine ⟨rfl, ?_⟩
  intro st2 h
  unfold FSSpecWrapper.makedirsSt fsMakedirs at h ⊢
  by_cases hp : p ∈ st.dirs
  · rw [if_pos hp] at h
    injection h with h
    subst h
    rw [if_pos hp]
    rfl
  · rw [if_neg hp] at h
    injection h with h
    subst h
    rw [if_pos (List.mem_cons_self _ _)]
    rfl

/-- Witness for C6: creating `"d"` twice from the empty state — the first
call adds the directory, the second returns the same state; the no-op
object-store `makedirs` also succeeds unchanged. -/
theorem C6_witness :
    ObjectFSWrapper.makedirsSt (St.mk [] [] []) "d" =
      Except.ok (St.mk [] [] []) ∧
    FSSpecWrapper.makedirsSt (St.mk [] [] []) "d" true =
      Except.ok (St.mk [] ["d"] []) ∧
    FSSpecWrapper.makedirsSt (St.mk [] ["d"] []) "d" true =
      Except.ok (St.mk [] ["d"] []) := by
  refine ⟨(C6_makedirs_idempotent (St.mk [] [] []) "d").1, by rfl, ?_⟩
  exact (C6_makedirs_idempotent (St.mk [] [] []) "d").2 (St.mk [] ["d"] []) (by rfl)

/-- C7: after `put_file(local, dst)` the cached listing of `dst`'s parent
is invalidated, so an immediately following `ls` on the parent computes a
fresh listing that contains the new object — even when a stale listing for
the parent was cached; this holds for the base wrapper's `put_file` and for
the callback-emulation mixin's `put_file`. -/
theorem C7_put_file_invalidates_listing (st : St) (fromFile dst : String) :
    dst ∈ FSSpecWrapper.lsSt (FSSpecWrapper.putFileSt st fromFile dst)
        (Path.parent dst) ∧
    ∃ st2, CallbackMixin.putFileSt st fromFile dst = Except.ok st2 ∧
      dst ∈ FSSpecWrapper.lsSt st2 (Path.parent dst) := by
  constructor
  · show dst ∈ FSSpecWrapper.lsSt
      (fsInvalidateCache (fsWriteObj st dst) (Path.parent dst)) (Path.parent dst)
    rw [lsSt_after_invalidate]
    exact mem_filter_parent dst st.objects
  · obtain ⟨st1, h1, ho1, hc1, hd1⟩ := exists_makedirs_true st (Path.parent dst)
    obtain ⟨st1b, h1b, ho1b, hc1b, hd1b⟩ := exists_makedirs_true st1 (Path.parent dst)
    refine ⟨fsInvalidateCache (fsWriteObj st1b dst) (Path.parent dst), ?_, ?_⟩
    · simp [CallbackMixin.putFileSt, FSSpecWrapper.makedirsSt,
        FSSpecWrapper.uploadFobjSt, h1, h1b]
    · rw [lsSt_after_invalidate]
      exact mem_filter_parent dst st1b.objects

/-- C9: `copy(src, dst)` first runs `makedirs` on `dst`'s parent and only
then the driver-native copy, so copying an existing `src` into a parent
directory that does not yet exist succeeds: the parent gets created and the
copy lands. -/
theorem C9_copy_creates_missing_parent (st : St) (src dst : String)
    (h : src ∈ st.objects) :
    ∃ st2, FSSpecWrapper.copySt st src dst = Except.ok st2 ∧
      dst ∈ st2.objects ∧ Path.parent dst ∈ st2.dirs := by
  obtain ⟨st1, h1, ho1, hc1, hd1⟩ := exists_makedirs_true st (Path.parent dst)
  have hsrc : src ∈ st1.objects := by rw [ho1]; exact h
  refine ⟨{ st1 with objects := dst :: st1.objects }, ?_, ?_, ?_⟩
  · have hstep : FSSpecWrapper.copySt st src dst = fsCopy st1 src dst := by
      unfold FSSpecWrapper.copySt FSSpecWrapper.makedirsSt
      rw [h1]
    rw [hstep]
    unfold fsCopy
    rw [if_pos hsrc, if_pos hd1]
  · exact List.mem_cons_self _ _
  · exact hd1

/-- Witness for C9: copying the sole object `"s"` to `"d/t"` on a state
with no directories at all succeeds, creating `"d"` and landing `"d/t"`. -/
theorem C9_witness :
    "s" ∈ (St.mk ["s"] [] []).objects ∧
    (∃ st2, FSSpecWrapper.copySt (St.mk ["s"] [] []) "s" "d/t" = Except.ok st2 ∧
      "d/t" ∈ st2.objects ∧ Path.parent "d/t" ∈ st2.dirs) :=
  ⟨by decide,
    C9_copy_creates_missing_parent (St.mk ["s"] [] []) "s" "d/t" (by decide)⟩

end DvcFS
